import Mathlib

/-!
# OpenMonitor: the eBPF connection monitor `ebpf/monitor.c`

A shallow embedding of the validation gate `is_valid_connection` and of the five
hook programs `tcp_connect`, `udp_v4_connect`, `udp_v6_connect`,
`socket_operations` and `udp_rcv`.

Machine integers are natural numbers; a store into a `u16`/`u32` field truncates
explicitly.  A hook invocation is a pure function of the kernel context it is
handed and of the answers of the kernel helpers it calls; its result is the
returned status together with the ordered list of effectful helper calls
(ring-buffer reserve / discard / submit, callback-flag update).
-/

namespace OpenMonitor

/-! ## Constants defined in monitor.c -/

def AF_INET : Nat := 2
def AF_INET6 : Nat := 10
def TCP : Nat := 6
def UDP : Nat := 17
def UDPLite : Nat := 136
def OUTBOUND : Nat := 0
def INBOUND : Nat := 1

/-! ## Machine integer stores -/

/-- Value kept by a store into a `u16` object. -/
def u16 (x : Nat) : Nat := x % 65536

/-- Value kept by a store into a `u32` object. -/
def u32 (x : Nat) : Nat := x % 4294967296

/-- Value of a `u64` object. -/
def u64 (x : Nat) : Nat := x % 18446744073709551616

/-! ## Data model -/

/-- The C array type `u32 [4]`: slots 0 to 3. -/
structure Addr4 where
  w0 : Nat
  w1 : Nat
  w2 : Nat
  w3 : Nat
deriving DecidableEq

/-- The record `struct Event` of monitor.c, field by field. -/
structure Event where
  saddr : Addr4
  daddr : Addr4
  sport : Nat
  dport : Nat
  pid : Nat
  ipVersion : Nat
  protocol : Nat
  direction : Nat
deriving DecidableEq

/-- What monitor.c takes from `vmlinux.h` and from the build target, which are not
part of the source file: the byte order of the target and three enumeration
constants.  Every hook is parameterised by these. -/
structure Vmlinux where
  little_endian : Bool
  IPPROTO_UDPLITE : Nat
  BPF_SOCK_OPS_PASSIVE_ESTABLISHED_CB : Nat
  BPF_SOCK_OPS_ALL_CB_FLAGS : Nat
deriving DecidableEq

/-- The fields of `struct sock` that the hooks read (`__sk_common.*` and
`sk_protocol`), as the raw values stored in the structure. -/
structure sock where
  skc_family : Nat
  skc_num : Nat
  skc_dport : Nat
  skc_rcv_saddr : Nat
  skc_daddr : Nat
  skc_v6_rcv_saddr : Addr4
  skc_v6_daddr : Addr4
  sk_protocol : Nat
deriving DecidableEq

/-- The fields of `struct bpf_sock_ops` that `socket_operations` reads. -/
structure bpf_sock_ops where
  op : Nat
  family : Nat
  remote_ip4 : Nat
  local_ip4 : Nat
  remote_ip6 : Addr4
  local_ip6 : Addr4
  remote_port : Nat
  local_port : Nat
deriving DecidableEq

/-- Answers of the kernel helpers during one hook invocation.
* `pid_tgid`: the value of `bpf_get_current_pid_tgid()`;
* `slot`: the answer of `bpf_ringbuf_reserve`: `none` for NULL, `some e` for a
  pointer to a slot whose memory currently holds `e` (reserve does not clear it);
* `udp6_sock`: whether `bpf_skc_to_udp6_sock(sk)` is non-NULL. -/
structure Kernel where
  pid_tgid : Nat
  slot : Option Event
  udp6_sock : Bool
deriving DecidableEq

/-- An effectful helper call made by a hook. -/
inductive Helper where
  | ringbuf_reserve (ok : Bool)
  | ringbuf_discard (e : Event)
  | ringbuf_submit (e : Event)
  | sock_ops_cb_flags_set (flags : Nat)
deriving DecidableEq

/-- Outcome of one hook invocation: returned status and helper calls in order. -/
structure Result where
  ret : Int
  calls : List Helper
deriving DecidableEq

/-- Field ranges of a `struct sock` as declared in C. -/
def sock.wf (sk : sock) : Prop :=
  sk.skc_family < 65536 ∧ sk.skc_num < 65536 ∧ sk.skc_dport < 65536 ∧
  sk.skc_rcv_saddr < 4294967296 ∧ sk.skc_daddr < 4294967296

instance (sk : sock) : Decidable sk.wf := by
  unfold sock.wf; exact inferInstance

/-! ## Helpers from libbpf and the kernel -/

/-- The 16-bit byte swap `__builtin_bswap16`. -/
def bswap16 (x : Nat) : Nat := (x / 256) % 256 + (x % 256) * 256

/-- Modelled from the spec: `bpf_ntohs` of `bpf/bpf_endian.h`, the conversion of a
16-bit value from network order to host order (§4.3): a byte swap on a
little-endian target and the identity on a big-endian one. -/
def bpf_ntohs (k : Vmlinux) (x : Nat) : Nat :=
  if k.little_endian then bswap16 x else x

/-- Modelled from the spec: `bpf_probe_read_kernel` with a 16-byte destination,
the "safe bulk copy from kernel memory" of §4.3; the destination array receives
the four source words. -/
def bpf_probe_read_kernel (src : Addr4) : Addr4 := src

/-! ## The validation gate -/

def is_valid_ipv4 (addr : Nat) : Int := if addr ≠ 0 then 1 else 0

/-- The gate `is_valid_connection(struct Event *event)`: the returned `int` and the
record behind the pointer after the call. -/
def is_valid_connection (event : Event) : Int × Event :=
  if event.sport = 0 ∨ event.dport = 0 then
    (0, event)
  else if event.ipVersion = 4 then
    (if is_valid_ipv4 event.saddr.w0 ≠ 0 ∧ is_valid_ipv4 event.daddr.w0 ≠ 0 then 1 else 0,
     event)
  else
    (1, event)

/-! ## The hooks -/

/-- Hook `fentry/tcp_connect`. -/
def tcp_connect (k : Vmlinux) (env : Kernel) (sk : sock) : Result :=
  match env.slot with
  | none => ⟨0, [.ringbuf_reserve false]⟩
  | some slot =>
    let tcp_info := { slot with pid := u32 (u64 env.pid_tgid >>> 32) }
    let tcp_info := { tcp_info with protocol := TCP }
    let tcp_info := { tcp_info with direction := OUTBOUND }
    let tcp_info := { tcp_info with sport := u16 (bpf_ntohs k sk.skc_num) }
    let tcp_info := { tcp_info with dport := u16 (bpf_ntohs k sk.skc_dport) }
    let tcp_info :=
      if sk.skc_family = AF_INET then
        let tcp_info :=
          { tcp_info with saddr := { tcp_info.saddr with w0 := u32 sk.skc_rcv_saddr } }
        let tcp_info :=
          { tcp_info with daddr := { tcp_info.daddr with w0 := u32 sk.skc_daddr } }
        { tcp_info with ipVersion := 4 }
      else if sk.skc_family = AF_INET6 then
        let tcp_info := { tcp_info with saddr := bpf_probe_read_kernel sk.skc_v6_rcv_saddr }
        let tcp_info := { tcp_info with daddr := bpf_probe_read_kernel sk.skc_v6_daddr }
        { tcp_info with ipVersion := 6 }
      else tcp_info
    let (valid, tcp_info) := is_valid_connection tcp_info
    if valid = 0 then
      ⟨0, [.ringbuf_reserve true, .ringbuf_discard tcp_info]⟩
    else
      ⟨0, [.ringbuf_reserve true, .ringbuf_submit tcp_info]⟩

/-- Hook `fexit/ip4_datagram_connect`. -/
def udp_v4_connect (k : Vmlinux) (env : Kernel) (sk : sock) : Result :=
  if sk.skc_family ≠ AF_INET ∨ sk.skc_dport = 0 then
    ⟨0, []⟩
  else
    match env.slot with
    | none => ⟨0, [.ringbuf_reserve false]⟩
    | some slot =>
      let udp_info := { slot with pid := u32 (u64 env.pid_tgid >>> 32) }
      let udp_info := { udp_info with sport := u16 (bpf_ntohs k sk.skc_num) }
      let udp_info := { udp_info with dport := u16 (bpf_ntohs k sk.skc_dport) }
      let udp_info :=
        { udp_info with saddr := { udp_info.saddr with w0 := u32 sk.skc_rcv_saddr } }
      let udp_info :=
        { udp_info with daddr := { udp_info.daddr with w0 := u32 sk.skc_daddr } }
      let udp_info := { udp_info with ipVersion := 4 }
      let udp_info :=
        { udp_info with
          protocol := if sk.sk_protocol = k.IPPROTO_UDPLITE then UDPLite else UDP }
      let (valid, udp_info) := is_valid_connection udp_info
      if valid = 0 then
        ⟨0, [.ringbuf_reserve true, .ringbuf_discard udp_info]⟩
      else
        ⟨0, [.ringbuf_reserve true, .ringbuf_submit udp_info]⟩

/-- Hook `fexit/ip6_datagram_connect`. -/
def udp_v6_connect (k : Vmlinux) (env : Kernel) (sk : sock) : Result :=
  if sk.skc_family ≠ AF_INET6 ∨ sk.skc_dport = 0 then
    ⟨0, []⟩
  else if env.udp6_sock = false then
    ⟨0, []⟩
  else
    match env.slot with
    | none => ⟨0, [.ringbuf_reserve false]⟩
    | some slot =>
      let udp_info := { slot with pid := u32 (u64 env.pid_tgid >>> 32) }
      let udp_info := { udp_info with sport := u16 (bpf_ntohs k sk.skc_num) }
      let udp_info := { udp_info with dport := u16 (bpf_ntohs k sk.skc_dport) }
      let udp_info := { udp_info with saddr := bpf_probe_read_kernel sk.skc_v6_rcv_saddr }
      let udp_info := { udp_info with daddr := bpf_probe_read_kernel sk.skc_v6_daddr }
      let udp_info := { udp_info with ipVersion := 6 }
      let udp_info :=
        { udp_info with
          protocol := if sk.sk_protocol = k.IPPROTO_UDPLITE then UDPLite else UDP }
      let (valid, udp_info) := is_valid_connection udp_info
      if valid = 0 then
        ⟨0, [.ringbuf_reserve true, .ringbuf_discard udp_info]⟩
      else
        ⟨0, [.ringbuf_reserve true, .ringbuf_submit udp_info]⟩

/-- Hook `sockops`. -/
def socket_operations (k : Vmlinux) (env : Kernel) (skops : bpf_sock_ops) : Result :=
  if skops.op ≠ k.BPF_SOCK_OPS_PASSIVE_ESTABLISHED_CB then
    ⟨0, []⟩
  else
    match env.slot with
    | none => ⟨0, [.ringbuf_reserve false]⟩
    | some slot =>
      let tcp_info := { slot with pid := 0 }
      let tcp_info := { tcp_info with protocol := TCP }
      let tcp_info := { tcp_info with direction := INBOUND }
      let tcp_info :=
        if skops.family = AF_INET then
          let tcp_info :=
            { tcp_info with sport := u16 (bpf_ntohs k (u32 skops.remote_port >>> 16)) }
          let tcp_info :=
            { tcp_info with dport := u16 (bpf_ntohs k (u32 skops.local_port >>> 16)) }
          let tcp_info :=
            { tcp_info with saddr := { tcp_info.saddr with w0 := u32 skops.remote_ip4 } }
          let tcp_info :=
            { tcp_info with daddr := { tcp_info.daddr with w0 := u32 skops.local_ip4 } }
          { tcp_info with ipVersion := 4 }
        else if skops.family = AF_INET6 then
          let tcp_info :=
            { tcp_info with sport := u16 (bpf_ntohs k (u32 skops.remote_port >>> 16)) }
          let tcp_info :=
            { tcp_info with dport := u16 (bpf_ntohs k (u32 skops.local_port >>> 16)) }
          let tcp_info := { tcp_info with ipVersion := 6 }
          let tcp_info := { tcp_info with saddr := bpf_probe_read_kernel skops.remote_ip6 }
          { tcp_info with daddr := bpf_probe_read_kernel skops.local_ip6 }
        else tcp_info
      let (valid, tcp_info) := is_valid_connection tcp_info
      if valid = 0 then
        ⟨0, [.ringbuf_reserve true, .ringbuf_discard tcp_info]⟩
      else
        ⟨0, [.ringbuf_reserve true, .ringbuf_submit tcp_info,
             .sock_ops_cb_flags_set k.BPF_SOCK_OPS_ALL_CB_FLAGS]⟩

/-- Hook `fexit/udp_recvmsg`; the socket pointer may be NULL (`none`). -/
def udp_rcv (k : Vmlinux) (env : Kernel) (sk : Option sock) : Result :=
  match sk with
  | none => ⟨0, []⟩
  | some skc =>
    match env.slot with
    | none => ⟨0, [.ringbuf_reserve false]⟩
    | some slot =>
      let udp_info := { slot with pid := u32 (u64 env.pid_tgid >>> 32) }
      let udp_info := { udp_info with protocol := UDP }
      let udp_info := { udp_info with direction := INBOUND }
      let udp_info := { udp_info with sport := u16 (bpf_ntohs k skc.skc_dport) }
      let udp_info := { udp_info with dport := u16 (bpf_ntohs k skc.skc_num) }
      let udp_info :=
        if skc.skc_family = AF_INET then
          let udp_info :=
            { udp_info with saddr := { udp_info.saddr with w0 := u32 skc.skc_daddr } }
          let udp_info :=
            { udp_info with daddr := { udp_info.daddr with w0 := u32 skc.skc_rcv_saddr } }
          { udp_info with ipVersion := 4 }
        else if skc.skc_family = AF_INET6 then
          let udp_info := { udp_info with saddr := bpf_probe_read_kernel skc.skc_v6_daddr }
          let udp_info :=
            { udp_info with daddr := bpf_probe_read_kernel skc.skc_v6_rcv_saddr }
          { udp_info with ipVersion := 6 }
        else udp_info
      let (valid, udp_info) := is_valid_connection udp_info
      if valid = 0 then
        ⟨0, [.ringbuf_reserve true, .ringbuf_discard udp_info]⟩
      else
        ⟨0, [.ringbuf_reserve true, .ringbuf_submit udp_info]⟩

/-! ## Observations on an outcome -/

/-- Records made visible on the ring buffer: the arguments of `bpf_ringbuf_submit`. -/
def published (r : Result) : List Event :=
  r.calls.filterMap fun c =>
    match c with
    | .ringbuf_submit e => some e
    | _ => none

/-- Records released without publication: the arguments of `bpf_ringbuf_discard`. -/
def discarded (r : Result) : List Event :=
  r.calls.filterMap fun c =>
    match c with
    | .ringbuf_discard e => some e
    | _ => none

/-- Answers of the calls to `bpf_ringbuf_reserve`, in order. -/
def reservations (r : Result) : List Bool :=
  r.calls.filterMap fun c =>
    match c with
    | .ringbuf_reserve ok => some ok
    | _ => none

/-- Arguments of the calls to `bpf_sock_ops_cb_flags_set`, in order. -/
def flags_set (r : Result) : List Nat :=
  r.calls.filterMap fun c =>
    match c with
    | .sock_ops_cb_flags_set f => some f
    | _ => none

/-- One hook invocation: a hook together with the context it is entered with. -/
inductive Invocation where
  | tcp_connect (sk : sock)
  | udp_v4_connect (sk : sock)
  | udp_v6_connect (sk : sock)
  | socket_operations (skops : bpf_sock_ops)
  | udp_rcv (sk : Option sock)
deriving DecidableEq

/-- Run the hook of an invocation. -/
def Invocation.run (k : Vmlinux) (env : Kernel) : Invocation → Result
  | .tcp_connect sk => OpenMonitor.tcp_connect k env sk
  | .udp_v4_connect sk => OpenMonitor.udp_v4_connect k env sk
  | .udp_v6_connect sk => OpenMonitor.udp_v6_connect k env sk
  | .socket_operations skops => OpenMonitor.socket_operations k env skops
  | .udp_rcv sk => OpenMonitor.udp_rcv k env sk

/-! ## Concrete targets, contexts and slot contents -/

/-- A little-endian Linux target (x86-64, arm64). -/
def linux_le : Vmlinux :=
  { little_endian := true, IPPROTO_UDPLITE := 136,
    BPF_SOCK_OPS_PASSIVE_ESTABLISHED_CB := 5, BPF_SOCK_OPS_ALL_CB_FLAGS := 127 }

/-- A big-endian Linux target (s390x): network order is host order, `bpf_ntohs`
is the identity. -/
def linux_be : Vmlinux :=
  { little_endian := false, IPPROTO_UDPLITE := 136,
    BPF_SOCK_OPS_PASSIVE_ESTABLISHED_CB := 5, BPF_SOCK_OPS_ALL_CB_FLAGS := 127 }

def zero4 : Addr4 := ⟨0, 0, 0, 0⟩

/-- A slot still holding an earlier record: an inbound IPv6 UDP datagram from
`[2001:db8::1]:53` to `[2001:db8::2]:40000` seen by process 4321. -/
def old_inbound_v6 : Event :=
  ⟨⟨0x20010db8, 0, 0, 1⟩, ⟨0x20010db8, 0, 0, 2⟩, 53, 40000, 4321, 6, UDP, INBOUND⟩

/-- A slot holding bytes that are no record at all (the ring has wrapped at an
offset that is not a record boundary). -/
def garbage_slot : Event :=
  ⟨⟨0xdeadbeef, 0xdeadbeef, 0xdeadbeef, 0xdeadbeef⟩,
   ⟨0xdeadbeef, 0xdeadbeef, 0xdeadbeef, 0xdeadbeef⟩, 0xdead, 0xbeef, 0xdeadbeef, 0xde, 0xad, 0xbe⟩

/-- Process 1234 (thread 1240) entering a hook while the ring buffer hands out
a slot that still holds `old_inbound_v6`. -/
def env_1234 : Kernel :=
  { pid_tgid := 1234 * 4294967296 + 1240, slot := some old_inbound_v6, udp6_sock := true }

/-- As `env_1234`, the slot holding `garbage_slot`. -/
def env_garbage : Kernel :=
  { pid_tgid := 1234 * 4294967296 + 1240, slot := some garbage_slot, udp6_sock := true }

/-- As `env_1234`, the ring buffer being full. -/
def env_full : Kernel :=
  { pid_tgid := 1234 * 4294967296 + 1240, slot := none, udp6_sock := true }

/-- Scenario 1 on the big-endian target: an AF_INET TCP socket bound to
192.168.0.10:54321 connecting to 93.184.216.34:443. -/
def sk_scenario1 : sock :=
  { skc_family := 2, skc_num := 54321, skc_dport := 443,
    skc_rcv_saddr := 0xC0A8000A, skc_daddr := 0x5DB8D822,
    skc_v6_rcv_saddr := zero4, skc_v6_daddr := zero4, sk_protocol := 6 }

/-- The record `tcp_connect` publishes for `sk_scenario1` in `env_1234`. -/
def scenario1_record : Event :=
  ⟨⟨0xC0A8000A, 0, 0, 1⟩, ⟨0x5DB8D822, 0, 0, 2⟩, 54321, 443, 1234, 4, TCP, OUTBOUND⟩

/-- On the big-endian target: an AF_INET UDP socket bound to 192.168.0.10:40000
connecting to 8.8.8.8:53. -/
def sk_udp4 : sock :=
  { skc_family := 2, skc_num := 40000, skc_dport := 53,
    skc_rcv_saddr := 0xC0A8000A, skc_daddr := 0x08080808,
    skc_v6_rcv_saddr := zero4, skc_v6_daddr := zero4, sk_protocol := 17 }

/-- On the big-endian target: an AF_INET6 UDP socket bound to
`[2001:db8::2]:40000` connecting to `[2001:db8::1]:53`. -/
def sk_udp6 : sock :=
  { skc_family := 10, skc_num := 40000, skc_dport := 53,
    skc_rcv_saddr := 0, skc_daddr := 0,
    skc_v6_rcv_saddr := ⟨0x20010db8, 0, 0, 2⟩,
    skc_v6_daddr := ⟨0x20010db8, 0, 0, 1⟩, sk_protocol := 17 }

/-- A socket whose address family is AF_UNIX (1), neither AF_INET nor AF_INET6. -/
def sk_other_family : sock :=
  { skc_family := 1, skc_num := 40000, skc_dport := 53,
    skc_rcv_saddr := 0, skc_daddr := 0,
    skc_v6_rcv_saddr := zero4, skc_v6_daddr := zero4, sk_protocol := 6 }

/-- An AF_INET socket with no peer port. -/
def sk_no_peer : sock :=
  { skc_family := 2, skc_num := 40000, skc_dport := 0,
    skc_rcv_saddr := 0xC0A8000A, skc_daddr := 0x08080808,
    skc_v6_rcv_saddr := zero4, skc_v6_daddr := zero4, sk_protocol := 17 }

/-- A passive-established callback of family AF_UNIX (1); the port fields hold
80 and 8080, both below 65536. -/
def skops_other_family : bpf_sock_ops :=
  { op := 5, family := 1, remote_ip4 := 0x7F000001, local_ip4 := 0x7F000001,
    remote_ip6 := zero4, local_ip6 := zero4, remote_port := 80, local_port := 8080 }

/-- A passive-established AF_INET callback, the port fields holding 80 and 8080
in their upper 16 bits. -/
def skops_high_ports : bpf_sock_ops :=
  { op := 5, family := 2, remote_ip4 := 0x7F000001, local_ip4 := 0x7F000001,
    remote_ip6 := zero4, local_ip6 := zero4, remote_port := 0x500000,
    local_port := 0x1f900000 }

/-- An IPv6 record with non-zero ports and all eight address words zero. -/
def v6_zero_addresses : Event := ⟨zero4, zero4, 53, 40000, 1, 6, UDP, OUTBOUND⟩

/-! ## The validation gate: lemmas -/

theorem gate_snd (e : Event) : (is_valid_connection e).2 = e := by
  unfold is_valid_connection
  split
  · rfl
  · split <;> rfl

theorem gate_pair (e : Event) : is_valid_connection e = ((is_valid_connection e).1, e) :=
  Prod.ext rfl (gate_snd e)

theorem gate_fst_ne_zero_iff (e : Event) :
    (is_valid_connection e).1 ≠ 0 ↔
      e.sport ≠ 0 ∧ e.dport ≠ 0 ∧ (e.ipVersion = 4 → e.saddr.w0 ≠ 0 ∧ e.daddr.w0 ≠ 0) := by
  unfold is_valid_connection is_valid_ipv4
  by_cases hs : e.sport = 0
  · simp [hs]
  · by_cases hd : e.dport = 0
    · simp [hd]
    · by_cases hv : e.ipVersion = 4
      · by_cases h1 : e.saddr.w0 = 0 <;> by_cases h2 : e.daddr.w0 = 0 <;>
          simp [hs, hd, hv, h1, h2]
      · simp [hs, hd, hv]

/-- C1. `is_valid_connection(e)` is non-zero exactly when both ports are non-zero
and, for `ipVersion == 4`, slot 0 of both addresses is non-zero; an IPv6 record
with non-zero ports is accepted whatever its address words are; the record behind
the pointer is the same after the call. -/
theorem is_valid_connection_spec (e : Event) :
    ((is_valid_connection e).1 ≠ 0 ↔
      e.sport ≠ 0 ∧ e.dport ≠ 0 ∧ (e.ipVersion = 4 → e.saddr.w0 ≠ 0 ∧ e.daddr.w0 ≠ 0)) ∧
    (e.ipVersion = 6 → e.sport ≠ 0 → e.dport ≠ 0 → (is_valid_connection e).1 ≠ 0) ∧
    (is_valid_connection e).2 = e := by
  refine ⟨gate_fst_ne_zero_iff e, ?_, gate_snd e⟩
  intro h6 hs hd
  rw [gate_fst_ne_zero_iff]
  refine ⟨hs, hd, ?_⟩
  intro h4
  omega

/-- The gate accepts the IPv6 record whose eight address words are all zero and
leaves it as it was. -/
theorem is_valid_connection_spec_witness :
    (is_valid_connection v6_zero_addresses).1 ≠ 0 ∧
    (is_valid_connection v6_zero_addresses).2 = v6_zero_addresses :=
  ⟨(is_valid_connection_spec v6_zero_addresses).2.1 (by decide) (by decide) (by decide),
   (is_valid_connection_spec v6_zero_addresses).2.2⟩

/-! ## The helper calls of a hook -/

/-- The common tail of the hooks: the gate is evaluated on the filled record `E`,
which is discarded when the gate answers 0 and submitted otherwise. -/
theorem resolve_cases (E : Event) (fl : List Helper) (r : Result)
    (hr : r = (match is_valid_connection E with
      | (valid, x) => if valid = 0 then
          (⟨0, [.ringbuf_reserve true, .ringbuf_discard x]⟩ : Result)
        else ⟨0, .ringbuf_reserve true :: .ringbuf_submit x :: fl⟩)) :
    r.ret = 0 ∧
      ∃ e, ((is_valid_connection e).1 = 0 ∧
              r.calls = [.ringbuf_reserve true, .ringbuf_discard e]) ∨
           ((is_valid_connection e).1 ≠ 0 ∧
              r.calls = .ringbuf_reserve true :: .ringbuf_submit e :: fl) := by
  rw [gate_pair] at hr
  simp only [] at hr
  by_cases hv : (is_valid_connection E).1 = 0
  · rw [if_pos hv] at hr
    subst hr
    exact ⟨rfl, E, Or.inl ⟨hv, rfl⟩⟩
  · rw [if_neg hv] at hr
    subst hr
    exact ⟨rfl, E, Or.inr ⟨hv, rfl⟩⟩

theorem tcp_connect_calls (k : Vmlinux) (env : Kernel) (sk : sock) :
    (tcp_connect k env sk).ret = 0 ∧
    ((tcp_connect k env sk).calls = [.ringbuf_reserve false] ∨
      ∃ e, ((is_valid_connection e).1 = 0 ∧
              (tcp_connect k env sk).calls =
                [.ringbuf_reserve true, .ringbuf_discard e]) ∨
           ((is_valid_connection e).1 ≠ 0 ∧
              (tcp_connect k env sk).calls =
                [.ringbuf_reserve true, .ringbuf_submit e])) := by
  unfold tcp_connect
  split
  · simp
  · obtain ⟨h0, h⟩ := resolve_cases _ [] _ rfl
    exact ⟨h0, Or.inr h⟩

theorem udp_v4_connect_calls (k : Vmlinux) (env : Kernel) (sk : sock) :
    (udp_v4_connect k env sk).ret = 0 ∧
    ((udp_v4_connect k env sk).calls = [] ∨
     (udp_v4_connect k env sk).calls = [.ringbuf_reserve false] ∨
      ∃ e, ((is_valid_connection e).1 = 0 ∧
              (udp_v4_connect k env sk).calls =
                [.ringbuf_reserve true, .ringbuf_discard e]) ∨
           ((is_valid_connection e).1 ≠ 0 ∧
              (udp_v4_connect k env sk).calls =
                [.ringbuf_reserve true, .ringbuf_submit e])) := by
  unfold udp_v4_connect
  split
  · simp
  · split
    · simp
    · obtain ⟨h0, h⟩ := resolve_cases _ [] _ rfl
      exact ⟨h0, Or.inr (Or.inr h)⟩

theorem udp_v6_connect_calls (k : Vmlinux) (env : Kernel) (sk : sock) :
    (udp_v6_connect k env sk).ret = 0 ∧
    ((udp_v6_connect k env sk).calls = [] ∨
     (udp_v6_connect k env sk).calls = [.ringbuf_reserve false] ∨
      ∃ e, ((is_valid_connection e).1 = 0 ∧
              (udp_v6_connect k env sk).calls =
                [.ringbuf_reserve true, .ringbuf_discard e]) ∨
           ((is_valid_connection e).1 ≠ 0 ∧
              (udp_v6_connect k env sk).calls =
                [.ringbuf_reserve true, .ringbuf_submit e])) := by
  unfold udp_v6_connect
  split
  · simp
  · split
    · simp
    · split
      · simp
      · obtain ⟨h0, h⟩ := resolve_cases _ [] _ rfl
        exact ⟨h0, Or.inr (Or.inr h)⟩

theorem socket_operations_calls (k : Vmlinux) (env : Kernel) (skops : bpf_sock_ops) :
    (socket_operations k env skops).ret = 0 ∧
    ((socket_operations k env skops).calls = [] ∨
     (socket_operations k env skops).calls = [.ringbuf_reserve false] ∨
      ∃ e, ((is_valid_connection e).1 = 0 ∧
              (socket_operations k env skops).calls =
                [.ringbuf_reserve true, .ringbuf_discard e]) ∨
           ((is_valid_connection e).1 ≠ 0 ∧
              (socket_operations k env skops).calls =
                [.ringbuf_reserve true, .ringbuf_submit e,
                 .sock_ops_cb_flags_set k.BPF_SOCK_OPS_ALL_CB_FLAGS])) := by
  unfold socket_operations
  split
  · simp
  · split
    · simp
    · obtain ⟨h0, h⟩ := resolve_cases _ [_] _ rfl
      exact ⟨h0, Or.inr (Or.inr h)⟩

theorem udp_rcv_calls (k : Vmlinux) (env : Kernel) (sk : Option sock) :
    (udp_rcv k env sk).ret = 0 ∧
    ((udp_rcv k env sk).calls = [] ∨
     (udp_rcv k env sk).calls = [.ringbuf_reserve false] ∨
      ∃ e, ((is_valid_connection e).1 = 0 ∧
              (udp_rcv k env sk).calls =
                [.ringbuf_reserve true, .ringbuf_discard e]) ∨
           ((is_valid_connection e).1 ≠ 0 ∧
              (udp_rcv k env sk).calls =
                [.ringbuf_reserve true, .ringbuf_submit e])) := by
  unfold udp_rcv
  split
  · simp
  · split
    · simp
    · obtain ⟨h0, h⟩ := resolve_cases _ [] _ rfl
      exact ⟨h0, Or.inr (Or.inr h)⟩

/-- The five hooks together: status 0, and the helper calls are none at all, one
failed reservation, or one successful reservation followed by the discard of a
record the gate rejects or by the submission of a record the gate accepts (after
which `socket_operations` alone also sets the callback flags). -/
theorem run_calls (k : Vmlinux) (env : Kernel) (inv : Invocation) :
    (inv.run k env).ret = 0 ∧
    ((inv.run k env).calls = [] ∨
     (inv.run k env).calls = [.ringbuf_reserve false] ∨
      ∃ e, ((is_valid_connection e).1 = 0 ∧
              (inv.run k env).calls = [.ringbuf_reserve true, .ringbuf_discard e]) ∨
           ((is_valid_connection e).1 ≠ 0 ∧
              ((inv.run k env).calls = [.ringbuf_reserve true, .ringbuf_submit e] ∨
               (inv.run k env).calls =
                 [.ringbuf_reserve true, .ringbuf_submit e,
                  .sock_ops_cb_flags_set k.BPF_SOCK_OPS_ALL_CB_FLAGS]))) := by
  cases inv with
  | tcp_connect sk =>
    obtain ⟨h0, h⟩ := tcp_connect_calls k env sk
    refine ⟨h0, ?_⟩
    rcases h with h | ⟨e, h | ⟨hv, h⟩⟩
    · exact Or.inr (Or.inl h)
    · exact Or.inr (Or.inr ⟨e, Or.inl h⟩)
    · exact Or.inr (Or.inr ⟨e, Or.inr ⟨hv, Or.inl h⟩⟩)
  | udp_v4_connect sk =>
    obtain ⟨h0, h⟩ := udp_v4_connect_calls k env sk
    refine ⟨h0, ?_⟩
    rcases h with h | h | ⟨e, h | ⟨hv, h⟩⟩
    · exact Or.inl h
    · exact Or.inr (Or.inl h)
    · exact Or.inr (Or.inr ⟨e, Or.inl h⟩)
    · exact Or.inr (Or.inr ⟨e, Or.inr ⟨hv, Or.inl h⟩⟩)
  | udp_v6_connect sk =>
    obtain ⟨h0, h⟩ := udp_v6_connect_calls k env sk
    refine ⟨h0, ?_⟩
    rcases h with h | h | ⟨e, h | ⟨hv, h⟩⟩
    · exact Or.inl h
    · exact Or.inr (Or.inl h)
    · exact Or.inr (Or.inr ⟨e, Or.inl h⟩)
    · exact Or.inr (Or.inr ⟨e, Or.inr ⟨hv, Or.inl h⟩⟩)
  | socket_operations skops =>
    obtain ⟨h0, h⟩ := socket_operations_calls k env skops
    refine ⟨h0, ?_⟩
    rcases h with h | h | ⟨e, h | ⟨hv, h⟩⟩
    · exact Or.inl h
    · exact Or.inr (Or.inl h)
    · exact Or.inr (Or.inr ⟨e, Or.inl h⟩)
    · exact Or.inr (Or.inr ⟨e, Or.inr ⟨hv, Or.inr h⟩⟩)
  | udp_rcv sk =>
    obtain ⟨h0, h⟩ := udp_rcv_calls k env sk
    refine ⟨h0, ?_⟩
    rcases h with h | h | ⟨e, h | ⟨hv, h⟩⟩
    · exact Or.inl h
    · exact Or.inr (Or.inl h)
    · exact Or.inr (Or.inr ⟨e, Or.inl h⟩)
    · exact Or.inr (Or.inr ⟨e, Or.inr ⟨hv, Or.inl h⟩⟩)

/-- When the ring buffer hands out no slot, a hook makes no helper call beyond
the failed reservation. -/
theorem run_calls_of_full (k : Vmlinux) (env : Kernel) (inv : Invocation)
    (hfull : env.slot = none) :
    (inv.run k env).calls = [] ∨ (inv.run k env).calls = [.ringbuf_reserve false] := by
  cases inv with
  | tcp_connect sk => simp [Invocation.run, tcp_connect, hfull]
  | udp_v4_connect sk =>
    simp only [Invocation.run, udp_v4_connect, hfull]
    split <;> simp
  | udp_v6_connect sk =>
    simp only [Invocation.run, udp_v6_connect, hfull]
    split
    · simp
    · split <;> simp
  | socket_operations skops =>
    simp only [Invocation.run, socket_operations, hfull]
    split <;> simp
  | udp_rcv sk =>
    cases sk with
    | none => simp [Invocation.run, udp_rcv]
    | some skc => simp [Invocation.run, udp_rcv, hfull]

/-! ## Byte order and the gate: further lemmas -/

theorem bswap16_eq_zero_iff (x : Nat) : bswap16 x = 0 ↔ x % 65536 = 0 := by
  unfold bswap16
  omega

theorem bswap16_lt (x : Nat) : bswap16 x < 65536 := by
  unfold bswap16
  omega

theorem u16_ntohs_zero (k : Vmlinux) : u16 (bpf_ntohs k 0) = 0 := by
  unfold u16 bpf_ntohs bswap16
  split <;> simp

theorem u16_ntohs_of_lt (k : Vmlinux) (x : Nat) (hx : x < 65536) :
    u16 (bpf_ntohs k x) = bpf_ntohs k x := by
  unfold u16 bpf_ntohs
  split
  · exact Nat.mod_eq_of_lt (bswap16_lt x)
  · exact Nat.mod_eq_of_lt hx

theorem ntohs_ne_zero (k : Vmlinux) (x : Nat) (hx : x < 65536) (h0 : x ≠ 0) :
    bpf_ntohs k x ≠ 0 := by
  unfold bpf_ntohs
  split
  · rw [Ne, bswap16_eq_zero_iff]
    omega
  · exact h0

theorem gate_zero_of_dport (e : Event) (h : e.dport = 0) : (is_valid_connection e).1 = 0 := by
  unfold is_valid_connection
  simp [h]

theorem gate_zero_of_sport (e : Event) (h : e.sport = 0) : (is_valid_connection e).1 = 0 := by
  unfold is_valid_connection
  simp [h]

/-- Hook `tcp_connect` on a socket without peer port: the filled record has
`dport = bpf_ntohs(0) = 0`, the gate rejects it and nothing is published. -/
theorem tcp_connect_zero_dport (k : Vmlinux) (env : Kernel) (sk : sock)
    (h : sk.skc_dport = 0) : published (tcp_connect k env sk) = [] := by
  unfold tcp_connect
  split
  · rfl
  · simp only []
    rw [gate_pair, if_pos]
    · rfl
    · apply gate_zero_of_dport
      simp only [h, u16_ntohs_zero]
      split
      · rfl
      · split <;> rfl

/-! ## Published records meet the gate -/

/-- C2. Whatever the hook, the context, the helper answers and the prior content
of the reserved slot: a record the hook submits to the ring buffer has non-zero
`sport` and `dport`, and if its `ipVersion` is 4 slot 0 of `saddr` and of `daddr`
is non-zero. -/
theorem published_records_pass_gate (k : Vmlinux) (env : Kernel) (inv : Invocation)
    (e : Event) (he : e ∈ published (inv.run k env)) :
    e.sport ≠ 0 ∧ e.dport ≠ 0 ∧ (e.ipVersion = 4 → e.saddr.w0 ≠ 0 ∧ e.daddr.w0 ≠ 0) := by
  unfold published at he
  rcases (run_calls k env inv).2 with h | h | ⟨x, ⟨_, h⟩ | ⟨hv, h | h⟩⟩ <;>
    rw [h] at he <;> simp at he
  · subst he
    exact (gate_fst_ne_zero_iff e).mp hv
  · subst he
    exact (gate_fst_ne_zero_iff e).mp hv

/-- On the big-endian target `tcp_connect` publishes `scenario1_record` for the
socket of scenario 1, and that record meets the gate. -/
theorem published_records_pass_gate_witness :
    scenario1_record ∈ published ((Invocation.tcp_connect sk_scenario1).run linux_be env_1234) ∧
    (scenario1_record.sport ≠ 0 ∧ scenario1_record.dport ≠ 0 ∧
      (scenario1_record.ipVersion = 4 →
        scenario1_record.saddr.w0 ≠ 0 ∧ scenario1_record.daddr.w0 ≠ 0)) :=
  ⟨by decide,
   published_records_pass_gate linux_be env_1234 (Invocation.tcp_connect sk_scenario1)
     scenario1_record (by decide)⟩

/-! ## One reservation, resolved once -/

/-- C3. Every hook invocation returns 0 and calls `bpf_ringbuf_reserve` at most
once.  If no slot is handed out, or the one reservation made has failed, nothing
is submitted, nothing is discarded and no callback flag is set.  If a reservation
has succeeded, there is one filled record `e`: when the gate rejects `e` it is
discarded once and nothing is submitted, when the gate accepts `e` it is
submitted once and nothing is discarded. -/
theorem reserve_resolve_once (k : Vmlinux) (env : Kernel) (inv : Invocation) :
    (inv.run k env).ret = 0 ∧
    (reservations (inv.run k env)).length ≤ 1 ∧
    (env.slot = none →
      published (inv.run k env) = [] ∧ discarded (inv.run k env) = [] ∧
      flags_set (inv.run k env) = []) ∧
    (false ∈ reservations (inv.run k env) →
      published (inv.run k env) = [] ∧ discarded (inv.run k env) = [] ∧
      flags_set (inv.run k env) = []) ∧
    (true ∈ reservations (inv.run k env) →
      ∃ e, ((is_valid_connection e).1 = 0 ∧
              discarded (inv.run k env) = [e] ∧ published (inv.run k env) = []) ∨
           ((is_valid_connection e).1 ≠ 0 ∧
              published (inv.run k env) = [e] ∧ discarded (inv.run k env) = [])) := by
  refine ⟨(run_calls k env inv).1, ?_, ?_, ?_, ?_⟩
  · unfold reservations
    rcases (run_calls k env inv).2 with h | h | ⟨x, ⟨_, h⟩ | ⟨_, h | h⟩⟩ <;>
      rw [h] <;> simp
  · intro hfull
    unfold published discarded flags_set
    rcases run_calls_of_full k env inv hfull with h | h <;> rw [h] <;> simp
  · unfold reservations published discarded flags_set
    rcases (run_calls k env inv).2 with h | h | ⟨x, ⟨_, h⟩ | ⟨_, h | h⟩⟩ <;>
      rw [h] <;> simp
  · unfold reservations published discarded
    rcases (run_calls k env inv).2 with h | h | ⟨x, ⟨hv, h⟩ | ⟨hv, h | h⟩⟩ <;> rw [h]
    · simp
    · simp
    · exact fun _ => ⟨x, Or.inl ⟨hv, rfl, rfl⟩⟩
    · exact fun _ => ⟨x, Or.inr ⟨hv, rfl, rfl⟩⟩
    · exact fun _ => ⟨x, Or.inr ⟨hv, rfl, rfl⟩⟩

/-- With the ring buffer full `udp_v4_connect` returns 0 after its one failed
reservation and publishes nothing. -/
theorem reserve_resolve_once_witness :
    ((Invocation.udp_v4_connect sk_udp4).run linux_be env_full).ret = 0 ∧
    reservations ((Invocation.udp_v4_connect sk_udp4).run linux_be env_full) = [false] ∧
    published ((Invocation.udp_v4_connect sk_udp4).run linux_be env_full) = [] ∧
    discarded ((Invocation.udp_v4_connect sk_udp4).run linux_be env_full) = [] :=
  ⟨(reserve_resolve_once linux_be env_full (Invocation.udp_v4_connect sk_udp4)).1,
   by decide,
   ((reserve_resolve_once linux_be env_full (Invocation.udp_v4_connect sk_udp4)).2.2.1
      (by decide)).1,
   ((reserve_resolve_once linux_be env_full (Invocation.udp_v4_connect sk_udp4)).2.2.1
      (by decide)).2.1⟩

/-! ## The record a hook publishes -/

/-- A record published by the common tail of the hooks is the filled record. -/
theorem resolve_mem (E : Event) (fl : List Helper) (r : Result)
    (hr : r = (match is_valid_connection E with
      | (valid, x) => if valid = 0 then
          (⟨0, [.ringbuf_reserve true, .ringbuf_discard x]⟩ : Result)
        else ⟨0, .ringbuf_reserve true :: .ringbuf_submit x :: fl⟩))
    (hfl : published ⟨0, fl⟩ = []) (e : Event) (he : e ∈ published r) : e = E := by
  rw [gate_pair] at hr
  simp only [] at hr
  by_cases hv : (is_valid_connection E).1 = 0
  · rw [if_pos hv] at hr
    subst hr
    simp [published] at he
  · rw [if_neg hv] at hr
    subst hr
    unfold published at he hfl
    simp only [List.filterMap_cons, List.mem_cons] at he
    simp only [] at hfl
    rw [hfl] at he
    simpa using he

/-- Every published record carries one of the three protocol numbers. -/
theorem published_protocol (k : Vmlinux) (env : Kernel) (inv : Invocation) (e : Event)
    (he : e ∈ published (inv.run k env)) :
    e.protocol = TCP ∨ e.protocol = UDP ∨ e.protocol = UDPLite := by
  cases inv with
  | tcp_connect sk =>
    simp only [Invocation.run] at he
    unfold tcp_connect at he
    split at he
    · simp [published] at he
    · have hE := resolve_mem _ [] _ rfl rfl e he
      subst hE
      split
      · exact Or.inl rfl
      · split <;> exact Or.inl rfl
  | udp_v4_connect sk =>
    simp only [Invocation.run] at he
    unfold udp_v4_connect at he
    split at he
    · simp [published] at he
    · split at he
      · simp [published] at he
      · have hE := resolve_mem _ [] _ rfl rfl e he
        subst hE
        simp only []
        split
        · exact Or.inr (Or.inr rfl)
        · exact Or.inr (Or.inl rfl)
  | udp_v6_connect sk =>
    simp only [Invocation.run] at he
    unfold udp_v6_connect at he
    split at he
    · simp [published] at he
    · split at he
      · simp [published] at he
      · split at he
        · simp [published] at he
        · have hE := resolve_mem _ [] _ rfl rfl e he
          subst hE
          simp only []
          split
          · exact Or.inr (Or.inr rfl)
          · exact Or.inr (Or.inl rfl)
  | socket_operations skops =>
    simp only [Invocation.run] at he
    unfold socket_operations at he
    split at he
    · simp [published] at he
    · split at he
      · simp [published] at he
      · have hE :=
          resolve_mem _ [.sock_ops_cb_flags_set k.BPF_SOCK_OPS_ALL_CB_FLAGS] _ rfl rfl e he
        subst hE
        split
        · exact Or.inl rfl
        · split <;> exact Or.inl rfl
  | udp_rcv sk =>
    simp only [Invocation.run] at he
    unfold udp_rcv at he
    split at he
    · simp [published] at he
    · split at he
      · simp [published] at he
      · have hE := resolve_mem _ [] _ rfl rfl e he
        subst hE
        split
        · exact Or.inr (Or.inl rfl)
        · split <;> exact Or.inr (Or.inl rfl)

/-- The three hooks that assign `direction` publish the value they assign:
`tcp_connect` OUTBOUND, `socket_operations` and `udp_rcv` INBOUND. -/
theorem published_direction_assigned (k : Vmlinux) (env : Kernel) (e : Event) :
    (∀ sk, e ∈ published (tcp_connect k env sk) → e.direction = OUTBOUND) ∧
    (∀ skops, e ∈ published (socket_operations k env skops) → e.direction = INBOUND) ∧
    (∀ sk, e ∈ published (udp_rcv k env sk) → e.direction = INBOUND) := by
  refine ⟨?_, ?_, ?_⟩
  · intro sk he
    unfold tcp_connect at he
    split at he
    · simp [published] at he
    · have hE := resolve_mem _ [] _ rfl rfl e he
      subst hE
      split
      · rfl
      · split <;> rfl
  · intro skops he
    unfold socket_operations at he
    split at he
    · simp [published] at he
    · split at he
      · simp [published] at he
      · have hE :=
          resolve_mem _ [.sock_ops_cb_flags_set k.BPF_SOCK_OPS_ALL_CB_FLAGS] _ rfl rfl e he
        subst hE
        split
        · rfl
        · split <;> rfl
  · intro sk he
    unfold udp_rcv at he
    split at he
    · simp [published] at he
    · split at he
      · simp [published] at he
      · have hE := resolve_mem _ [] _ rfl rfl e he
        subst hE
        split
        · rfl
        · split <;> rfl

/-- A callback with another operation code: `socket_operations` returns 0 without
any helper call. -/
theorem socket_operations_other_op (k : Vmlinux) (env : Kernel) (skops : bpf_sock_ops)
    (hop : skops.op ≠ k.BPF_SOCK_OPS_PASSIVE_ESTABLISHED_CB) :
    socket_operations k env skops = ⟨0, []⟩ := by
  unfold socket_operations
  rw [if_pos hop]

/-- Every record `socket_operations` publishes has `pid = 0`, `protocol = TCP` and
`direction = INBOUND`. -/
theorem socket_operations_record_tags (k : Vmlinux) (env : Kernel) (skops : bpf_sock_ops)
    (e : Event) (he : e ∈ published (socket_operations k env skops)) :
    e.pid = 0 ∧ e.protocol = TCP ∧ e.direction = INBOUND := by
  unfold socket_operations at he
  split at he
  · simp [published] at he
  · split at he
    · simp [published] at he
    · have hE :=
        resolve_mem _ [.sock_ops_cb_flags_set k.BPF_SOCK_OPS_ALL_CB_FLAGS] _ rfl rfl e he
      subst hE
      split
      · exact ⟨rfl, rfl, rfl⟩
      · split <;> exact ⟨rfl, rfl, rfl⟩

/-- For a callback of family AF_INET or AF_INET6, the record `socket_operations`
publishes takes its ports from the upper 16 bits of `remote_port` / `local_port`
and its addresses from the remote / local address of the context. -/
theorem socket_operations_known_family_record (k : Vmlinux) (env : Kernel)
    (skops : bpf_sock_ops) (e : Event)
    (hfam : skops.family = AF_INET ∨ skops.family = AF_INET6)
    (he : e ∈ published (socket_operations k env skops)) :
    e.sport = u16 (bpf_ntohs k (u32 skops.remote_port >>> 16)) ∧
    e.dport = u16 (bpf_ntohs k (u32 skops.local_port >>> 16)) ∧
    (skops.family = AF_INET →
      e.ipVersion = 4 ∧ e.saddr.w0 = u32 skops.remote_ip4 ∧ e.daddr.w0 = u32 skops.local_ip4) ∧
    (skops.family = AF_INET6 →
      e.ipVersion = 6 ∧ e.saddr = skops.remote_ip6 ∧ e.daddr = skops.local_ip6) := by
  unfold socket_operations at he
  split at he
  · simp [published] at he
  · split at he
    · simp [published] at he
    · have hE :=
        resolve_mem _ [.sock_ops_cb_flags_set k.BPF_SOCK_OPS_ALL_CB_FLAGS] _ rfl rfl e he
      subst hE
      rcases hfam with h4 | h6
      · rw [if_pos h4]
        exact ⟨rfl, rfl, fun _ => ⟨rfl, rfl, rfl⟩,
          fun h => absurd (h4.symm.trans h) (by decide)⟩
      · have hne : ¬ skops.family = AF_INET := by rw [h6]; decide
        rw [if_neg hne, if_pos h6]
        exact ⟨rfl, rfl, fun h => absurd h hne, fun _ => ⟨rfl, rfl, rfl⟩⟩

/-- For a callback of family AF_INET or AF_INET6 with a port field below 65536,
the port derived from that field is 0: the gate rejects the record, nothing is
published and the callback flags are not set. -/
theorem socket_operations_low_port_known_family (k : Vmlinux) (env : Kernel)
    (skops : bpf_sock_ops)
    (hfam : skops.family = AF_INET ∨ skops.family = AF_INET6)
    (hlow : skops.local_port < 65536 ∨ skops.remote_port < 65536) :
    published (socket_operations k env skops) = [] ∧
    flags_set (socket_operations k env skops) = [] := by
  have hz : ∀ x, x < 65536 → u16 (bpf_ntohs k (u32 x >>> 16)) = 0 := by
    intro x hx
    have : u32 x >>> 16 = 0 := by
      unfold u32
      rw [Nat.shiftRight_eq_div_pow]
      omega
    rw [this, u16_ntohs_zero]
  unfold socket_operations
  split
  · exact ⟨rfl, rfl⟩
  · split
    · exact ⟨rfl, rfl⟩
    · simp only []
      rw [gate_pair, if_pos]
      · exact ⟨rfl, rfl⟩
      · rcases hfam with h4 | h6
        · rw [if_pos h4]
          rcases hlow with hl | hr
          · exact gate_zero_of_dport _ (hz _ hl)
          · exact gate_zero_of_sport _ (hz _ hr)
        · have hne : ¬ skops.family = AF_INET := by rw [h6]; decide
          rw [if_neg hne, if_pos h6]
          rcases hlow with hl | hr
          · exact gate_zero_of_dport _ (hz _ hl)
          · exact gate_zero_of_sport _ (hz _ hr)

/-! ## Direction and protocol of published records -/

/-- C4. Evaluation at the failing input: `udp_v4_connect` and `udp_v6_connect`
never assign `direction`, so the published record keeps what the reserved slot
held.  On a slot that held an inbound record both hooks publish
`direction = INBOUND`; on a slot holding arbitrary bytes they publish
`direction = 0xbe`, which is neither OUTBOUND nor INBOUND. -/
theorem udp_connect_direction_unset :
    published (udp_v4_connect linux_be env_1234 sk_udp4) =
      [⟨⟨0xC0A8000A, 0, 0, 1⟩, ⟨0x08080808, 0, 0, 2⟩, 40000, 53, 1234, 4, UDP, INBOUND⟩] ∧
    published (udp_v6_connect linux_be env_1234 sk_udp6) =
      [⟨⟨0x20010db8, 0, 0, 2⟩, ⟨0x20010db8, 0, 0, 1⟩, 40000, 53, 1234, 6, UDP, INBOUND⟩] ∧
    (published (udp_v4_connect linux_be env_garbage sk_udp4)).map Event.direction = [0xbe] ∧
    (published (udp_v6_connect linux_be env_garbage sk_udp6)).map Event.direction = [0xbe] := by
  decide

/-! ## Address slots 1 to 3 of IPv4 records -/

/-- C5. Evaluation at the failing input: the IPv4 branches write slot 0 of `saddr`
and `daddr` only.  On a slot holding arbitrary bytes `tcp_connect` and
`udp_v4_connect` publish an `ipVersion = 4` record whose slots 1 to 3 are
`0xdeadbeef`; so do `socket_operations` and `udp_rcv` on a slot that held an IPv6
record, whose last address words stay in place. -/
theorem ipv4_upper_slots_unset :
    published (tcp_connect linux_be env_garbage sk_scenario1) =
      [⟨⟨0xC0A8000A, 0xdeadbeef, 0xdeadbeef, 0xdeadbeef⟩,
        ⟨0x5DB8D822, 0xdeadbeef, 0xdeadbeef, 0xdeadbeef⟩, 54321, 443, 1234, 4, TCP, OUTBOUND⟩] ∧
    published (udp_v4_connect linux_be env_garbage sk_udp4) =
      [⟨⟨0xC0A8000A, 0xdeadbeef, 0xdeadbeef, 0xdeadbeef⟩,
        ⟨0x08080808, 0xdeadbeef, 0xdeadbeef, 0xdeadbeef⟩, 40000, 53, 1234, 4, UDP, 0xbe⟩] ∧
    published (udp_rcv linux_be env_1234 (some sk_udp4)) =
      [⟨⟨0x08080808, 0, 0, 1⟩, ⟨0xC0A8000A, 0, 0, 2⟩, 53, 40000, 1234, 4, UDP, INBOUND⟩] ∧
    published (socket_operations linux_be env_1234 skops_high_ports) =
      [⟨⟨0x7F000001, 0, 0, 1⟩, ⟨0x7F000001, 0, 0, 2⟩, 80, 8080, 0, 4, TCP, INBOUND⟩] := by
  decide

/-! ## Sockets of another address family -/

/-- C6. Evaluation at the failing input: for a socket of family AF_UNIX (1)
`tcp_connect`, `socket_operations` (passive-established callback) and `udp_rcv`
skip both address branches, leave `ipVersion`, `saddr` and `daddr` (and, in
`socket_operations`, the ports) as the slot held them, and publish the record. -/
theorem unknown_family_published :
    published (tcp_connect linux_be env_1234 sk_other_family) =
      [⟨⟨0x20010db8, 0, 0, 1⟩, ⟨0x20010db8, 0, 0, 2⟩, 40000, 53, 1234, 6, TCP, OUTBOUND⟩] ∧
    published (socket_operations linux_be env_1234 skops_other_family) =
      [⟨⟨0x20010db8, 0, 0, 1⟩, ⟨0x20010db8, 0, 0, 2⟩, 53, 40000, 0, 6, TCP, INBOUND⟩] ∧
    published (udp_rcv linux_be env_1234 (some sk_other_family)) =
      [⟨⟨0x20010db8, 0, 0, 1⟩, ⟨0x20010db8, 0, 0, 2⟩, 53, 40000, 1234, 6, UDP, INBOUND⟩] := by
  decide

/-! ## Connect hooks and the peer port -/

/-- C7. For a socket whose peer port `skc_dport` is 0 none of the three connect
hooks publishes a record.  In `udp_v4_connect` a zero peer port or a family other
than AF_INET, and in `udp_v6_connect` a zero peer port or a family other than
AF_INET6, ends the hook with status 0 before any helper is called, so no
reservation is attempted. -/
theorem zero_peer_port_no_record (k : Vmlinux) (env : Kernel) (sk : sock) :
    (sk.skc_dport = 0 →
      published (tcp_connect k env sk) = [] ∧
      published (udp_v4_connect k env sk) = [] ∧
      published (udp_v6_connect k env sk) = []) ∧
    (sk.skc_dport = 0 ∨ sk.skc_family ≠ AF_INET → udp_v4_connect k env sk = ⟨0, []⟩) ∧
    (sk.skc_dport = 0 ∨ sk.skc_family ≠ AF_INET6 → udp_v6_connect k env sk = ⟨0, []⟩) := by
  have h4 : sk.skc_dport = 0 ∨ sk.skc_family ≠ AF_INET → udp_v4_connect k env sk = ⟨0, []⟩ := by
    intro h
    unfold udp_v4_connect
    rw [if_pos h.symm]
  have h6 : sk.skc_dport = 0 ∨ sk.skc_family ≠ AF_INET6 → udp_v6_connect k env sk = ⟨0, []⟩ := by
    intro h
    unfold udp_v6_connect
    rw [if_pos h.symm]
  refine ⟨?_, h4, h6⟩
  intro h
  refine ⟨tcp_connect_zero_dport k env sk h, ?_, ?_⟩
  · rw [h4 (Or.inl h)]
    rfl
  · rw [h6 (Or.inl h)]
    rfl

/-- For the socket without peer port: `tcp_connect` reserves, discards and
publishes nothing; the two UDP hooks make no helper call; `udp_v4_connect` makes
none for an AF_INET6 socket and `udp_v6_connect` none for an AF_INET socket. -/
theorem zero_peer_port_no_record_witness :
    (published (tcp_connect linux_be env_1234 sk_no_peer) = [] ∧
     published (udp_v4_connect linux_be env_1234 sk_no_peer) = [] ∧
     published (udp_v6_connect linux_be env_1234 sk_no_peer) = []) ∧
    reservations (tcp_connect linux_be env_1234 sk_no_peer) = [true] ∧
    udp_v4_connect linux_be env_1234 sk_no_peer = ⟨0, []⟩ ∧
    udp_v6_connect linux_be env_1234 sk_no_peer = ⟨0, []⟩ ∧
    udp_v4_connect linux_be env_1234 sk_udp6 = ⟨0, []⟩ ∧
    udp_v6_connect linux_be env_1234 sk_udp4 = ⟨0, []⟩ :=
  ⟨(zero_peer_port_no_record linux_be env_1234 sk_no_peer).1 rfl,
   by decide,
   (zero_peer_port_no_record linux_be env_1234 sk_no_peer).2.1 (Or.inl rfl),
   (zero_peer_port_no_record linux_be env_1234 sk_no_peer).2.2 (Or.inl rfl),
   (zero_peer_port_no_record linux_be env_1234 sk_udp6).2.1 (Or.inr (by decide)),
   (zero_peer_port_no_record linux_be env_1234 sk_udp4).2.2 (Or.inr (by decide))⟩

/-! ## Scenario 1: outbound IPv4 TCP -/

/-- On a little-endian target `bpf_ntohs` swaps the two bytes of `skc_num`: the
socket of scenario 1 with `skc_num` reading 54321 is published with
`sport = 12756`, and with `sport = 54321` when the field reads `0x31D4`. -/
theorem tcp_connect_le_swaps_skc_num :
    (published (tcp_connect linux_le env_1234 sk_scenario1)).map Event.sport = [12756] ∧
    (published (tcp_connect linux_le env_1234
      { sk_scenario1 with skc_num := 0x31D4, skc_dport := 0xBB01 })).map Event.sport
        = [54321] := by
  decide

/-! ## The passive-established callback -/

end OpenMonitor
